import Mathlib

/-
Verification of the document metadata service in `main.py`.

The service has two HTTP handlers:
  * `upload_file` (POST /upload/): validates `part_number`, builds the key
    `documents/<part_number>/<filename>`, writes the bytes to S3, then inserts
    a `Document` row; a boto3 `ClientError` is mapped to HTTP 500, while a
    database uniqueness violation (the `documents.part_number` column is
    declared `unique=True`) is not caught by the `except ClientError` clause
    and propagates as an unhandled exception.
  * `get_document` (GET /document/{part_number}): finds the row by
    `part_number`, 404s when absent, otherwise issues a presigned URL for the
    stored `s3_key` with `ExpiresIn=3600`.

The embedding models the two external stores explicitly: the S3 bucket as an
association list from keys to byte lists (newest write first, reads see the
newest entry for a key, matching overwrite-by-key semantics) and the
`documents` table as a list of rows plus an autoincrement counter.  The two
fallible external calls (`s3.upload_fileobj` and `generate_presigned_url`)
are given a Boolean success oracle, so that every execution of the Python
handler corresponds to an evaluation of the Lean function at some oracle
value.
-/

/-- A row of the `documents` table (class `Document` in `main.py`):
autoincrement primary key `id`, `part_number` (declared `unique=True`),
`file_name`, and `s3_key`. -/
structure Document where
  id : Nat
  part_number : String
  file_name : String
  s3_key : String
  deriving DecidableEq

/-- The relational database state: the rows of the `documents` table in
insertion order, plus the next autoincrement id. -/
structure DbState where
  docs : List Document
  nextId : Nat
  deriving DecidableEq

/-- The S3 bucket contents: an association list from object keys to byte
lists; the entry closest to the head is the current value of a key. -/
structure S3State where
  objects : List (String × List Nat)
  deriving DecidableEq

/-- The full external state a request can read or write. -/
structure SysState where
  s3 : S3State
  db : DbState
  deriving DecidableEq

/-- `s3.upload_fileobj(file.file, BUCKET_NAME, s3_key)`: store `bytes` under
`key`, silently overwriting any previous object at that key. -/
def s3_put (s : S3State) (key : String) (bytes : List Nat) : S3State :=
  ⟨(key, bytes) :: s.objects⟩

/-- Read the current object at `key`, if any. -/
def s3_get (s : S3State) (key : String) : Option (List Nat) :=
  s.objects.lookup key

/-- `db.query(Document).filter(Document.part_number == part_number).first()`:
the first row whose `part_number` matches, if any. -/
def db_find (db : DbState) (pn : String) : Option Document :=
  db.docs.find? (fun d => d.part_number == pn)

/-- `db.add(...); db.commit()` against the `unique=True` constraint on
`part_number`: the insert persists a new row and bumps the autoincrement
counter, or fails (SQLAlchemy raises `IntegrityError` at commit) when a row
with the same `part_number` already exists. -/
def db_insert (db : DbState) (pn fn key : String) : Option DbState :=
  if (db_find db pn).isSome then none
  else some ⟨db.docs ++ [⟨db.nextId, pn, fn, key⟩], db.nextId + 1⟩

/-- The outcome of one HTTP request: a typed success body, an
`HTTPException(status_code, detail)` raised by the handler, or an exception
the handler does not catch (surfaced by the framework as a generic 500). -/
inductive ApiResult (α : Type) where
  | ok (body : α)
  | httpError (status : Nat) (detail : String)
  | uncaughtException (exc : String)
  deriving DecidableEq

/-- `UploadResponse` in `main.py`. -/
structure UploadResponse where
  message : String
  part_number : String
  deriving DecidableEq

/-- `DocumentResponse` in `main.py`. -/
structure DocumentResponse where
  file_name : String
  download_url : String
  deriving DecidableEq

/-- Line 74 of `main.py`: the storage key
`f"documents/\x7bpart_number\x7d/\x7bfile.filename\x7d"`.  No character of
either input is sanitized or escaped. -/
def s3_key_of (pn fn : String) : String :=
  "documents/" ++ pn ++ "/" ++ fn

/-- Modelled from the spec: the bucket name is environment configuration
(`os.getenv("S3_BUCKET_NAME")`), opaque to the handlers; it only appears
inside issued URLs. -/
def BUCKET_NAME : String := "S3_BUCKET_NAME"

/-- Modelled from the spec: boto3's `generate_presigned_url` (outside this
repository) issues a signed, time-limited URL that is a deterministic
function of the bucket, the object key and the TTL. -/
def generate_presigned_url (bucket key : String) (expiresIn : Nat) : String :=
  "https://" ++ bucket ++ ".s3.amazonaws.com/" ++ key
    ++ "?X-Amz-Expires=" ++ toString expiresIn

/-- `upload_file` in `main.py` (POST /upload/).  `s3ok` is the oracle for the
`s3.upload_fileobj` call: `false` means boto3 raised `ClientError` (and wrote
nothing).  `pn` is the optional `part_number` query parameter (`None` when
absent); `if not part_number` in Python is true for both `None` and `""`.
The database insert happens only after a successful S3 write; its uniqueness
failure is an `IntegrityError`, which the `except ClientError` clause does not
catch. -/
def upload_file (s3ok : Bool) (pn : Option String) (filename : String)
    (bytes : List Nat) (st : SysState) : ApiResult UploadResponse × SysState :=
  if pn = none ∨ pn = some "" then
    (.httpError 400 "Part number is required", st)
  else
    let p := pn.getD ""
    let key := s3_key_of p filename
    if s3ok then
      let st1 : SysState := { st with s3 := s3_put st.s3 key bytes }
      match db_insert st1.db p filename key with
      | some db1 => (.ok ⟨"File uploaded successfully", p⟩, { st1 with db := db1 })
      | none => (.uncaughtException "IntegrityError", st1)
    else
      (.httpError 500 "ClientError", st)

/-- `get_document` in `main.py` (GET /document/{part_number}).  `signOk` is
the oracle for the `generate_presigned_url` call: `false` means boto3 raised
`ClientError`, caught and mapped to HTTP 500.  The `HTTPException(404)` raised
inside the `try` block is not a `ClientError` and propagates with status
404. -/
def get_document (signOk : Bool) (pn : String) (st : SysState) :
    ApiResult DocumentResponse × SysState :=
  match db_find st.db pn with
  | none => (.httpError 404 "Document not found", st)
  | some doc =>
    if signOk then
      (.ok ⟨doc.file_name, generate_presigned_url BUCKET_NAME doc.s3_key 3600⟩, st)
    else
      (.httpError 500 "ClientError", st)

/-- One inbound request, with its external-call oracles. -/
inductive Op where
  | upload (s3ok : Bool) (pn : Option String) (filename : String) (bytes : List Nat)
  | lookup (signOk : Bool) (pn : String)

/-- The state transition of one request (responses discarded). -/
def applyOp (st : SysState) (op : Op) : SysState :=
  match op with
  | .upload s3ok pn fn bytes => (upload_file s3ok pn fn bytes st).2
  | .lookup signOk pn => (get_document signOk pn st).2

/-- The state of a fresh deployment: empty bucket, empty `documents` table. -/
def emptyState : SysState := ⟨⟨[]⟩, ⟨[], 1⟩⟩

/-- The state after a sequence of requests against a fresh deployment. -/
def run (ops : List Op) : SysState := ops.foldl applyOp emptyState

/-- The outcome is an `HTTPException` with a 4xx status code. -/
def is4xx {α : Type} : ApiResult α → Prop
  | .httpError status _ => 400 ≤ status ∧ status < 500
  | _ => False

instance {α : Type} (r : ApiResult α) : Decidable (is4xx r) := by
  cases r with
  | ok body => exact .isFalse (fun h => h)
  | httpError s d => exact instDecidableAnd
  | uncaughtException e => exact .isFalse (fun h => h)

/-- The `part_number` column is pairwise distinct across the rows of the
table — the property the `unique=True` constraint enforces. -/
def distinctPNs (l : List Document) : Prop :=
  l.Pairwise (fun a b => a.part_number ≠ b.part_number)

instance (l : List Document) : Decidable (distinctPNs l) :=
  List.instDecidablePairwise l

/-- Auxiliary: `find?` skips a block in which nothing matches. -/
theorem find?_append_of_none {α : Type} {p : α → Bool} {l₁ : List α} (l₂ : List α)
    (h : l₁.find? p = none) : (l₁ ++ l₂).find? p = l₂.find? p := by
  induction l₁ with
  | nil => rfl
  | cons a t ih =>
    cases hp : p a with
    | true => simp [List.find?_cons, hp] at h
    | false =>
      simp only [List.find?_cons, hp] at h
      simpa [List.find?_cons, hp] using ih h

/-- C9: the key derivation `documents/<pn>/<fn>` is not injective: the two
distinct input pairs `("a/b", "c")` and `("a", "b/c")`, each containing an
unsanitized slash, derive the same storage key `documents/a/b/c`. -/
theorem s3_key_of_not_injective :
    s3_key_of "a/b" "c" = s3_key_of "a" "b/c" ∧
      (("a/b", "c") : String × String) ≠ ("a", "b/c") := by
  constructor
  · rfl
  · decide

/-- C10: `get_document` is read-only: whatever the part number, the database
state and the S3 state, and whether the presigned-URL call succeeds or fails,
the lookup returns the system state unchanged. -/
theorem get_document_read_only (signOk : Bool) (pn : String) (st : SysState) :
    (get_document signOk pn st).2 = st := by
  unfold get_document
  cases h : db_find st.db pn with
  | none => rfl
  | some doc => cases signOk <;> rfl

/-- Auxiliary: a valid upload of a fresh part number with a successful S3
call computes to the success response, one new S3 object and one appended
row. -/
theorem upload_file_fresh (pn filename : String) (bytes : List Nat) (st : SysState)
    (hpn : pn ≠ "") (hfresh : db_find st.db pn = none) :
    upload_file true (some pn) filename bytes st =
      (.ok ⟨"File uploaded successfully", pn⟩,
        ⟨s3_put st.s3 (s3_key_of pn filename) bytes,
         ⟨st.db.docs ++ [⟨st.db.nextId, pn, filename, s3_key_of pn filename⟩],
          st.db.nextId + 1⟩⟩) := by
  unfold upload_file db_insert
  simp [hpn, hfresh]

/-- C3: an upload whose `part_number` is absent or empty fails with
HTTP 400 `Part number is required` and leaves the whole system state — the
S3 bucket and the `documents` table — exactly as it was, whatever the S3
oracle would have answered. -/
theorem upload_missing_part_number (s3ok : Bool) (pn : Option String)
    (filename : String) (bytes : List Nat) (st : SysState)
    (h : pn = none ∨ pn = some "") :
    upload_file s3ok pn filename bytes st =
      (.httpError 400 "Part number is required", st) := by
  unfold upload_file
  rw [if_pos h]

/-- Witness for C3 at a concrete input: uploading without a part number
against a fresh deployment returns 400 and changes nothing. -/
theorem upload_missing_part_number_witness :
    upload_file true none "spec.pdf" [37, 80, 68, 70] emptyState =
      (.httpError 400 "Part number is required", emptyState) :=
  upload_missing_part_number true none "spec.pdf" [37, 80, 68, 70] emptyState
    (Or.inl rfl)

/-- C5: looking up a part number with no row in the `documents` table fails
with HTTP 404 `Document not found` and returns the state unchanged; the
outcome does not depend on the presigned-URL oracle `signOk`, because the
object-store gateway is never reached on this path. -/
theorem lookup_unknown_part_number (signOk : Bool) (pn : String) (st : SysState)
    (h : db_find st.db pn = none) :
    get_document signOk pn st = (.httpError 404 "Document not found", st) := by
  unfold get_document
  rw [h]

/-- Witness for C5 at a concrete input: looking up a never-uploaded part
number on a fresh deployment returns 404. -/
theorem lookup_unknown_part_number_witness :
    get_document false "PN-404" emptyState =
      (.httpError 404 "Document not found", emptyState) :=
  lookup_unknown_part_number false "PN-404" emptyState rfl

/-- Auxiliary: after appending a row for a part number that no earlier row
carries, `db_find` resolves that part number to the appended row. -/
theorem db_find_append (db2 : DbState) (pn : String) (d : Document) (l : List Document)
    (hfresh : l.find? (fun x => x.part_number == pn) = none)
    (hd : d.part_number = pn) (hdocs : db2.docs = l ++ [d]) :
    db_find db2 pn = some d := by
  unfold db_find
  rw [hdocs, find?_append_of_none _ hfresh]
  simp [List.find?, hd]

/-- C1: a valid upload (non-empty part number, any filename and bytes)
against a state with no row for that part number answers exactly
`message = "File uploaded successfully"` with the given part number, and a
subsequent lookup of the same part number answers the original filename
together with a presigned URL issued for the storage key
`documents/<part_number>/<filename>`. -/
theorem upload_then_lookup (pn filename : String) (bytes : List Nat) (st : SysState)
    (hpn : pn ≠ "") (hfresh : db_find st.db pn = none) :
    (upload_file true (some pn) filename bytes st).1 =
      .ok ⟨"File uploaded successfully", pn⟩ ∧
    (get_document true pn (upload_file true (some pn) filename bytes st).2).1 =
      .ok ⟨filename, generate_presigned_url BUCKET_NAME (s3_key_of pn filename) 3600⟩ := by
  rw [upload_file_fresh pn filename bytes st hpn hfresh]
  refine ⟨rfl, ?_⟩
  unfold get_document
  rw [db_find_append _ pn ⟨st.db.nextId, pn, filename, s3_key_of pn filename⟩
    st.db.docs hfresh rfl rfl]
  rfl

/-- Witness for C1 at the concrete scenario of the spec: part number
`PN-100`, file `spec.pdf`, bytes `%PDF`. -/
theorem upload_then_lookup_witness :
    ("PN-100" : String) ≠ "" ∧
    ((upload_file true (some "PN-100") "spec.pdf" [37, 80, 68, 70] emptyState).1 =
        .ok ⟨"File uploaded successfully", "PN-100"⟩ ∧
      (get_document true "PN-100"
          (upload_file true (some "PN-100") "spec.pdf" [37, 80, 68, 70] emptyState).2).1 =
        .ok ⟨"spec.pdf",
          generate_presigned_url BUCKET_NAME (s3_key_of "PN-100" "spec.pdf") 3600⟩) :=
  ⟨by decide, upload_then_lookup "PN-100" "spec.pdf" [37, 80, 68, 70] emptyState
    (by decide) rfl⟩

/-- C4: a successful upload stores the bytes in S3 under the key
`"documents/" ++ part_number ++ "/" ++ filename`, and the row it creates
records exactly that string as its `s3_key`. -/
theorem upload_storage_key (pn filename : String) (bytes : List Nat) (st : SysState)
    (hpn : pn ≠ "") (hfresh : db_find st.db pn = none) :
    s3_get (upload_file true (some pn) filename bytes st).2.s3
        ("documents/" ++ pn ++ "/" ++ filename) = some bytes ∧
    db_find (upload_file true (some pn) filename bytes st).2.db pn =
      some ⟨st.db.nextId, pn, filename, "documents/" ++ pn ++ "/" ++ filename⟩ := by
  rw [upload_file_fresh pn filename bytes st hpn hfresh]
  constructor
  · simp [s3_get, s3_put, s3_key_of, List.lookup]
  · exact db_find_append _ pn ⟨st.db.nextId, pn, filename, s3_key_of pn filename⟩
      st.db.docs hfresh rfl rfl

/-- Witness for C4 at a concrete input. -/
theorem upload_storage_key_witness :
    ("PN-100" : String) ≠ "" ∧
    (s3_get (upload_file true (some "PN-100") "spec.pdf" [37, 80] emptyState).2.s3
        "documents/PN-100/spec.pdf" = some [37, 80] ∧
      db_find (upload_file true (some "PN-100") "spec.pdf" [37, 80] emptyState).2.db
        "PN-100" = some ⟨1, "PN-100", "spec.pdf", "documents/PN-100/spec.pdf"⟩) :=
  ⟨by decide, upload_storage_key "PN-100" "spec.pdf" [37, 80] emptyState (by decide) rfl⟩

/-- Auxiliary: whenever the S3 call of a valid upload succeeds, the post
state's bucket holds the uploaded bytes under the derived key — whatever the
database insert then does. -/
theorem upload_file_true_s3 (pn filename : String) (bytes : List Nat) (st : SysState)
    (hpn : pn ≠ "") :
    (upload_file true (some pn) filename bytes st).2.s3 =
      s3_put st.s3 (s3_key_of pn filename) bytes := by
  unfold upload_file
  rw [if_neg (by simp [hpn])]
  cases h : db_insert st.db pn filename (s3_key_of pn filename) with
  | some db1 => simp [h]
  | none => simp [h]

/-- Auxiliary: the response of a lookup depends only on the database
component of the state. -/
theorem get_document_fst_eq_of_db_eq (signOk : Bool) (pn : String) (st st2 : SysState)
    (h : st.db = st2.db) :
    (get_document signOk pn st).1 = (get_document signOk pn st2).1 := by
  unfold get_document
  rw [h]
  cases h2 : db_find st2.db pn with
  | none => rfl
  | some d => cases signOk <;> rfl

/-- C6: within one valid upload the S3 write settles before the database
write begins.  When the S3 call fails, the handler answers HTTP 500
`ClientError` and the whole state — in particular the `documents` table — is
untouched, so no metadata row is ever created without the object-store write;
and when the S3 call succeeds, the post state's bucket holds the bytes under
the derived key whatever the metadata insert then does. -/
theorem upload_s3_settles_before_db (pn filename : String) (bytes : List Nat)
    (st : SysState) (hpn : pn ≠ "") :
    upload_file false (some pn) filename bytes st =
      (.httpError 500 "ClientError", st) ∧
    s3_get (upload_file true (some pn) filename bytes st).2.s3
      (s3_key_of pn filename) = some bytes := by
  constructor
  · unfold upload_file
    rw [if_neg (by simp [hpn])]
    rfl
  · rw [upload_file_true_s3 pn filename bytes st hpn]
    simp [s3_get, s3_put, List.lookup]

/-- Witness for C6 at a concrete input. -/
theorem upload_s3_settles_before_db_witness :
    ("PN-100" : String) ≠ "" ∧
    (upload_file false (some "PN-100") "spec.pdf" [37, 80] emptyState =
        (.httpError 500 "ClientError", emptyState) ∧
      s3_get (upload_file true (some "PN-100") "spec.pdf" [37, 80] emptyState).2.s3
        (s3_key_of "PN-100" "spec.pdf") = some [37, 80]) :=
  ⟨by decide, upload_s3_settles_before_db "PN-100" "spec.pdf" [37, 80] emptyState
    (by decide)⟩

/-- C7: when the S3 write of a valid upload succeeds but the metadata insert
then fails on the uniqueness constraint, the handler raises the uncaught
`IntegrityError`, the bytes written to S3 remain stored under the derived key
(no compensating delete happens), and the `documents` table is unchanged. -/
theorem failed_insert_keeps_object (pn filename : String) (bytes : List Nat)
    (st : SysState) (hpn : pn ≠ "") (hdup : (db_find st.db pn).isSome = true) :
    (upload_file true (some pn) filename bytes st).1 =
      .uncaughtException "IntegrityError" ∧
    s3_get (upload_file true (some pn) filename bytes st).2.s3
      (s3_key_of pn filename) = some bytes ∧
    (upload_file true (some pn) filename bytes st).2.db = st.db := by
  have hins : db_insert st.db pn filename (s3_key_of pn filename) = none := by
    unfold db_insert
    rw [if_pos hdup]
  unfold upload_file
  rw [if_neg (by simp [hpn])]
  simp [hins, s3_get, s3_put, List.lookup]

/-- Witness for C7 at a concrete input: a second upload of part number
`PN-100` with a different file, against a state already holding `PN-100`. -/
theorem failed_insert_keeps_object_witness :
    ("PN-100" : String) ≠ "" ∧
    (db_find (⟨⟨[("documents/PN-100/spec.pdf", [37, 80])]⟩,
        ⟨[⟨1, "PN-100", "spec.pdf", "documents/PN-100/spec.pdf"⟩], 2⟩⟩ : SysState).db
      "PN-100").isSome = true ∧
    (upload_file true (some "PN-100") "other.pdf" [1, 2, 3]
        ⟨⟨[("documents/PN-100/spec.pdf", [37, 80])]⟩,
         ⟨[⟨1, "PN-100", "spec.pdf", "documents/PN-100/spec.pdf"⟩], 2⟩⟩).1 =
      .uncaughtException "IntegrityError" :=
  ⟨by decide, by decide,
    (failed_insert_keeps_object "PN-100" "other.pdf" [1, 2, 3]
      ⟨⟨[("documents/PN-100/spec.pdf", [37, 80])]⟩,
       ⟨[⟨1, "PN-100", "spec.pdf", "documents/PN-100/spec.pdf"⟩], 2⟩⟩
      (by decide) (by decide)).1⟩

/-- C2, counterexample: a duplicate upload does not fail with a
4xx-equivalent `DuplicatePartNumber` outcome.  At this concrete state, which
already holds a row for `PN-100`, the second upload of `PN-100` ends in the
uncaught `IntegrityError` — the `except ClientError` clause does not catch
it, so the framework surfaces a generic 500, not a 4xx. -/
theorem duplicate_upload_not_4xx :
    (upload_file true (some "PN-100") "other.pdf" [1, 2, 3]
        ⟨⟨[("documents/PN-100/spec.pdf", [37, 80])]⟩,
         ⟨[⟨1, "PN-100", "spec.pdf", "documents/PN-100/spec.pdf"⟩], 2⟩⟩).1 =
      .uncaughtException "IntegrityError" ∧
    ¬ is4xx (upload_file true (some "PN-100") "other.pdf" [1, 2, 3]
        ⟨⟨[("documents/PN-100/spec.pdf", [37, 80])]⟩,
         ⟨[⟨1, "PN-100", "spec.pdf", "documents/PN-100/spec.pdf"⟩], 2⟩⟩).1 := by
  constructor
  · decide
  · decide

/-- C2, amended: an upload whose part number already has a row, and whose S3
write succeeds, fails with the unhandled database `IntegrityError` — a
5xx-equivalent outcome, not a distinct 4xx `DuplicatePartNumber` — it does
not silently succeed, and the lookup response for the pre-existing record is
unchanged by the failed attempt, for either answer of the signing oracle. -/
theorem duplicate_upload_uncaught_db_error (pn filename : String) (bytes : List Nat)
    (st : SysState) (hpn : pn ≠ "") (hdup : (db_find st.db pn).isSome = true) :
    (upload_file true (some pn) filename bytes st).1 =
      .uncaughtException "IntegrityError" ∧
    ¬ is4xx (upload_file true (some pn) filename bytes st).1 ∧
    (get_document true pn (upload_file true (some pn) filename bytes st).2).1 =
      (get_document true pn st).1 ∧
    (get_document false pn (upload_file true (some pn) filename bytes st).2).1 =
      (get_document false pn st).1 := by
  obtain ⟨hexc, -, hdb⟩ := failed_insert_keeps_object pn filename bytes st hpn hdup
  refine ⟨hexc, ?_, ?_, ?_⟩
  · rw [hexc]
    exact fun h => h
  · exact get_document_fst_eq_of_db_eq true pn _ st hdb
  · exact get_document_fst_eq_of_db_eq false pn _ st hdb

/-- Witness for the amended C2 at a concrete input. -/
theorem duplicate_upload_uncaught_db_error_witness :
    ("PN-100" : String) ≠ "" ∧
    (db_find (⟨⟨[("documents/PN-100/spec.pdf", [37, 80])]⟩,
        ⟨[⟨1, "PN-100", "spec.pdf", "documents/PN-100/spec.pdf"⟩], 2⟩⟩ : SysState).db
      "PN-100").isSome = true ∧
    (get_document true "PN-100"
        (upload_file true (some "PN-100") "other.pdf" [1, 2, 3]
          ⟨⟨[("documents/PN-100/spec.pdf", [37, 80])]⟩,
           ⟨[⟨1, "PN-100", "spec.pdf", "documents/PN-100/spec.pdf"⟩], 2⟩⟩).2).1 =
      (get_document true "PN-100"
        ⟨⟨[("documents/PN-100/spec.pdf", [37, 80])]⟩,
         ⟨[⟨1, "PN-100", "spec.pdf", "documents/PN-100/spec.pdf"⟩], 2⟩⟩).1 :=
  ⟨by decide, by decide,
    (duplicate_upload_uncaught_db_error "PN-100" "other.pdf" [1, 2, 3]
      ⟨⟨[("documents/PN-100/spec.pdf", [37, 80])]⟩,
       ⟨[⟨1, "PN-100", "spec.pdf", "documents/PN-100/spec.pdf"⟩], 2⟩⟩
      (by decide) (by decide)).2.2.1⟩

/-- Auxiliary: one upload either leaves the `documents` table unchanged or
appends exactly one row, whose part number had no earlier row. -/
theorem upload_file_db_shape (s3ok : Bool) (pn : Option String) (filename : String)
    (bytes : List Nat) (st : SysState) :
    (upload_file s3ok pn filename bytes st).2.db = st.db ∨
    ∃ d : Document, db_find st.db d.part_number = none ∧
      (upload_file s3ok pn filename bytes st).2.db =
        ⟨st.db.docs ++ [d], st.db.nextId + 1⟩ := by
  unfold upload_file
  by_cases h : pn = none ∨ pn = some ""
  · left
    rw [if_pos h]
  · rw [if_neg h]
    cases s3ok with
    | false => left; rfl
    | true =>
      cases hfind : db_find st.db (pn.getD "") with
      | some d =>
        left
        have hins : db_insert st.db (pn.getD "") filename
            (s3_key_of (pn.getD "") filename) = none := by
          unfold db_insert
          rw [if_pos (by rw [hfind]; rfl)]
        simp [hins]
      | none =>
        right
        refine ⟨⟨st.db.nextId, pn.getD "", filename,
          s3_key_of (pn.getD "") filename⟩, hfind, ?_⟩
        have hins : db_insert st.db (pn.getD "") filename
            (s3_key_of (pn.getD "") filename) =
            some ⟨st.db.docs ++ [⟨st.db.nextId, pn.getD "", filename,
              s3_key_of (pn.getD "") filename⟩], st.db.nextId + 1⟩ := by
          unfold db_insert
          rw [if_neg (by rw [hfind]; simp)]
        simp [hins]

/-- Auxiliary: every request preserves pairwise distinctness of the part
numbers in the table. -/
theorem distinct_applyOp (st : SysState) (op : Op)
    (h : distinctPNs st.db.docs) : distinctPNs (applyOp st op).db.docs := by
  cases op with
  | lookup signOk pn =>
    show distinctPNs (get_document signOk pn st).2.db.docs
    rw [get_document_read_only]
    exact h
  | upload s3ok pn fn bytes =>
    show distinctPNs (upload_file s3ok pn fn bytes st).2.db.docs
    rcases upload_file_db_shape s3ok pn fn bytes st with heq | ⟨d, hfresh, heq⟩
    · rw [heq]
      exact h
    · rw [heq]
      refine List.pairwise_append.mpr ⟨h, by simp, ?_⟩
      intro a ha b hb
      have hb' : b = d := List.mem_singleton.mp hb
      subst hb'
      have hne := List.find?_eq_none.mp hfresh a ha
      simpa using hne

/-- Auxiliary: distinctness of part numbers holds along any fold of
requests. -/
theorem distinct_run_aux (ops : List Op) (st : SysState)
    (h : distinctPNs st.db.docs) : distinctPNs (ops.foldl applyOp st).db.docs := by
  induction ops generalizing st with
  | nil => exact h
  | cons op rest ih => exact ih (applyOp st op) (distinct_applyOp st op h)

/-- C8: in every state reachable from the fresh deployment by any sequence
of requests, the rows of the `documents` table carry pairwise-distinct part
numbers; and no request ever updates or deletes an existing row — each
request leaves the table unchanged or appends exactly one new row at the
end. -/
theorem reachable_state_invariants :
    (∀ ops : List Op, distinctPNs (run ops).db.docs) ∧
    (∀ (st : SysState) (op : Op), (applyOp st op).db.docs = st.db.docs ∨
      ∃ d : Document, (applyOp st op).db.docs = st.db.docs ++ [d]) := by
  constructor
  · intro ops
    exact distinct_run_aux ops emptyState List.Pairwise.nil
  · intro st op
    cases op with
    | lookup signOk pn =>
      left
      show (get_document signOk pn st).2.db.docs = st.db.docs
      rw [get_document_read_only]
    | upload s3ok pn fn bytes =>
      rcases upload_file_db_shape s3ok pn fn bytes st with heq | ⟨d, -, heq⟩
      · left
        show (upload_file s3ok pn fn bytes st).2.db.docs = st.db.docs
        rw [heq]
      · right
        refine ⟨d, ?_⟩
        show (upload_file s3ok pn fn bytes st).2.db.docs = st.db.docs ++ [d]
        rw [heq]
